import Mathlib

/-!
Verification development for the reaction-prompt subsystem of the OverBot
Discord bot (src/classes/paginator.py, src/classes/exceptions.py).

The Python code is shallowly embedded: the mutable session state becomes
explicit data, the event-wait primitive `bot.wait_for` becomes a function
over a time-ordered list of incoming signals, and the transport operations
(send, add_reaction, delete) become functions parameterised by which calls
succeed.  Exceptions become explicit result values: `Except.error` models a
raised exception, and `PagResult` models the domain exceptions `NoChoice`
and `CannotAddReactions` together with normal returns.
-/

namespace OverBot

/-- The `PLATFORMS` module constant: canonical platform identifier to
display name, in source order. -/
def PLATFORMS : List (String × String) :=
  [("pc", "PC"),
   ("psn", "Playstation"),
   ("xbl", "Xbox"),
   ("nintendo-switch", "Switch")]

/-- An external reaction signal target: the reaction object carries the
emoji (as rendered by `str(...)`) and the id of the message it was put on. -/
structure Reaction where
  emoji : String
  messageId : Nat
  deriving DecidableEq

/-- The user who produced a signal. -/
structure User where
  id : Nat
  deriving DecidableEq

/-- The per-session state consulted by the wait filter: the invoking user
id (`self.author.id`), the bot account id (`self.bot.user.id`), the id of
the rendered message (`self.message.id`) and the configured marker set
(`self.reactions`: the dict keys for Link/Update, the list for Choose). -/
structure Session where
  authorId : Nat
  botUserId : Nat
  messageId : Nat
  reactions : List String
  deriving DecidableEq

/-- One incoming reaction event, tagged with its arrival time (the list of
signals handed to `wait_for` is assumed time-ordered). -/
structure Sig where
  t : Nat
  r : Reaction
  u : User
  deriving DecidableEq

/-- Observable transport events of one session, in order. -/
inductive Ev
  | render
  | sendMsg
  | deleteMsg
  deriving DecidableEq

/-- Outcome of a prompt run: a normal return, the `NoChoice` exception
raised on timeout, the `CannotAddReactions` exception raised by `start`,
or an exception escaping from `result`. -/
inductive PagResult (α : Type)
  | ok (a : α)
  | noChoice
  | cannotAddReactions
  | resolveErr
  deriving DecidableEq

/-- The display object built by `init_embed` (a `discord.Embed`): accent
color, author header, and the optional title, description, image url and
footer text. `fields` holds the `add_field` pairs used by `Update`. -/
structure Embed where
  color : Nat
  authorName : String
  authorIconUrl : String
  title : Option String := none
  description : Option String := none
  imageUrl : Option String := none
  footerText : Option String := none
  fields : List (String × String) := []
  deriving DecidableEq

/-- The construction-time configuration `init_embed` reads: the accent
color `bot.color(author.id)`, the author identity, and the optional
`title`, `image` and `footer` fields. -/
structure EmbedCfg where
  color : Nat
  authorName : String
  authorIcon : String
  title : Option String := none
  image : Option String := none
  footer : Option String := none
  deriving DecidableEq

/-- The full observable outcome of a concrete `start` flow: the returned
or raised result, the transport event trace, the embed handed to
`ctx.send`, and the final `self.description` line list. -/
structure StartOut (α : Type) where
  res : PagResult α
  trace : List Ev
  embed : Embed
  description : List String
  deriving DecidableEq

namespace BasePaginator

/-- `BasePaginator.init_embed`, line for line.  Python truthiness: an
absent (`None`) or empty title/image/footer string is skipped.  A truthy
title of length at most 256 becomes `embed.title`; a longer one is instead
appended to `self.description` — the single state mutation of this method,
returned as the second component. -/
def init_embed (cfg : EmbedCfg) (description : List String) : Embed × List String :=
  let embed : Embed :=
    { color := cfg.color, authorName := cfg.authorName,
      authorIconUrl := cfg.authorIcon }
  let step1 : Embed × List String :=
    match cfg.title with
    | some t =>
      if t ≠ "" then
        if t.length ≤ 256 then ({ embed with title := some t }, description)
        else (embed, description ++ [t])
      else (embed, description)
    | none => (embed, description)
  let step2 : Embed :=
    match cfg.image with
    | some u => if u ≠ "" then { step1.1 with imageUrl := some u } else step1.1
    | none => step1.1
  let step3 : Embed :=
    match cfg.footer with
    | some f => if f ≠ "" then { step2 with footerText := some f } else step2
    | none => step2
  (step3, step1.2)

/-- The wait predicate `check(r, u)` defined inside
`BasePaginator.paginator`, line for line:
rejects a user other than the invoker, the bot itself, a reaction on a
different message, and an emoji outside the configured marker set. -/
def check (s : Session) (r : Reaction) (u : User) : Bool :=
  if u.id ≠ s.authorId then false
  else if u.id = s.botUserId then false
  else if r.messageId ≠ s.messageId then false
  else if r.emoji ∉ s.reactions then false
  else true

/-- The same predicate with the bot-self conjunct
(`if u.id == self.bot.user.id: return false`) removed; used only to compare
against `check` for the refinement claim. -/
def check_no_self (s : Session) (r : Reaction) (u : User) : Bool :=
  if u.id ≠ s.authorId then false
  else if r.messageId ≠ s.messageId then false
  else if r.emoji ∉ s.reactions then false
  else true

/-- `bot.wait_for("reaction_add", check=check, timeout=timeout)`: the first
signal arriving before the timeout that satisfies the filter resolves the
wait; signals failing the filter are skipped and the wait continues.
Returns `none` when the timeout elapses first (`asyncio.TimeoutError`). -/
def wait_for (s : Session) (timeout : Nat) (sigs : List Sig) : Option Reaction :=
  ((sigs.filter (fun g => g.t < timeout)).find? (fun g => check s g.r g.u)).map
    (fun g => g.r)

/-- `self.message.delete()`: succeeds or raises a transport error
(`discord.HTTPException` / `discord.Forbidden`), decided by `deleteOk`. -/
def message_delete (deleteOk : Bool) : Except Unit Unit :=
  if deleteOk then Except.ok () else Except.error ()

/-- `BasePaginator.cleanup`: one delete attempt under
`contextlib.suppress(discord.HTTPException, discord.Forbidden)`.  Returns
the transport events and the exception visible to the caller (`none`
always: both failure classes are suppressed). -/
def cleanup (deleteOk : Bool) : List Ev × Option Unit :=
  match message_delete deleteOk with
  | Except.ok _ => ([Ev.deleteMsg], none)
  | Except.error _ => ([Ev.deleteMsg], none)

/-- `self.message.add_reaction(m)`: succeeds or raises, decided per marker
by `attach`. -/
def message_add_reaction (attach : String → Bool) (m : String) : Except Unit Unit :=
  if attach m then Except.ok () else Except.error ()

/-- `BasePaginator.add_reactions`: walks the marker set in order; each
iteration attempts one attach, and a raised `HTTPException`/`Forbidden`
returns immediately.  Yields `(attempted markers, attached markers)`. -/
def add_reactions (attach : String → Bool) : List String → List String × List String
  | [] => ([], [])
  | m :: rest =>
    match message_add_reaction attach m with
    | Except.ok _ =>
      let p := add_reactions attach rest
      (m :: p.1, m :: p.2)
    | Except.error _ => ([m], [])

/-- `BasePaginator.paginator`: sends the embed (`Ev.sendMsg`), spawns
`add_reactions` as a fire-and-forget task (modelled separately, its events
being concurrent), then waits under the filter.  `try/except/else/finally`:
a timeout raises `NoChoice`, success returns `self.result(reaction)` (whose
own exception, if any, escapes as `resolveErr`), and `cleanup` runs on
every path before the call returns or raises. -/
def paginator {α : Type} (s : Session) (timeout : Nat) (sigs : List Sig)
    (resultOf : Reaction → Except Unit α) (deleteOk : Bool) :
    PagResult α × List Ev :=
  let cl := cleanup deleteOk
  match wait_for s timeout sigs with
  | none => (PagResult.noChoice, Ev.sendMsg :: cl.1)
  | some r =>
    match resultOf r with
    | Except.ok a => (PagResult.ok a, Ev.sendMsg :: cl.1)
    | Except.error _ => (PagResult.resolveErr, Ev.sendMsg :: cl.1)

/-- `BasePaginator.start`: raises `CannotAddReactions` when the channel
does not grant the bot the add-reactions permission, before anything is
sent; otherwise delegates to `paginator`. -/
def start {α : Type} (canAddReactions : Bool) (s : Session) (timeout : Nat)
    (sigs : List Sig) (resultOf : Reaction → Except Unit α) (deleteOk : Bool) :
    PagResult α × List Ev :=
  if ¬ canAddReactions then (PagResult.cannotAddReactions, [])
  else paginator s timeout sigs resultOf deleteOk

end BasePaginator

namespace Link

/-- `Link.__init__` passes `title=_("Platform")`; the i18n lookup is
modelled as the identity on the source string. -/
def title : String := "Platform"

/-- `Link.__init__` passes `footer=_("React with the platform you play on...")`. -/
def footer : String := "React with the platform you play on..."

/-- `Link.__init__` leaves the default `timeout=30.0`. -/
def timeout : Nat := 30

/-- The `self.reactions` dict of `Link`, in insertion order: four platform
emojis mapped to canonical platform identifiers, and the cancel emoji
mapped to `None`. -/
def reactions : List (String × Option String) :=
  [("<:battlenet:679469162724196387>", some "pc"),
   ("<:psn:679468542541693128>", some "psn"),
   ("<:xbl:679469487623503930>", some "xbl"),
   ("<:nsw:752653766377078817>", some "nintendo-switch"),
   ("❌", none)]

/-- `Link.result` (inherited unchanged by `Update`):
`self.reactions.get(str(reaction.emoji))` — dict lookup whose default of
`None` coincides with the cancel value. -/
def result (emoji : String) : Option String :=
  match reactions.lookup emoji with
  | some v => v
  | none => none

/-- The embed configuration `Link.start` renders with. -/
def cfg (color : Nat) (authorName authorIcon : String) : EmbedCfg :=
  { color := color, authorName := authorName, authorIcon := authorIcon,
    title := some title, image := none, footer := some footer }

/-- The description lines appended by the loop in `Link.start`: one
`"key - display"` line per non-cancel marker, using `PLATFORMS.get`
(an absent platform would print as the string `"None"`). -/
def descriptionLines : List String :=
  reactions.filterMap (fun kv =>
    match kv.2 with
    | none => none
    | some v =>
      some (kv.1 ++ " - " ++ (match PLATFORMS.lookup v with
                              | some disp => disp
                              | none => "None")))

/-- `Link.start`: builds the embed via `init_embed` (`Ev.render`), appends
the marker lines to `self.description`, joins them into the embed
description, and delegates to `BasePaginator.start` with the dict keys as
the marker set. -/
def start (color : Nat) (authorName authorIcon : String)
    (authorId botId msgId : Nat) (canAdd : Bool) (sigs : List Sig)
    (deleteOk : Bool) : StartOut (Option String) :=
  let ie := BasePaginator.init_embed (cfg color authorName authorIcon) []
  let d := ie.2 ++ descriptionLines
  let embed := { ie.1 with description := some (String.intercalate "\n" d) }
  let s : Session :=
    { authorId := authorId, botUserId := botId, messageId := msgId,
      reactions := reactions.map Prod.fst }
  let p := BasePaginator.start canAdd s timeout sigs
    (fun r => Except.ok (result r.emoji)) deleteOk
  { res := p.1, trace := Ev.render :: p.2, embed := embed, description := d }

end Link

namespace Update

/-- `Update.start`: identical to `Link.start` (marker set, `result`,
timeout and marker lines are inherited from `Link`), plus one extra
description line and the two labelled fields showing the profile about to
be overwritten. -/
def start (color : Nat) (authorName authorIcon : String)
    (authorId botId msgId : Nat) (platform username : String)
    (canAdd : Bool) (sigs : List Sig) (deleteOk : Bool) :
    StartOut (Option String) :=
  let ie := BasePaginator.init_embed (Link.cfg color authorName authorIcon) []
  let d := ie.2 ++ Link.descriptionLines ++ ["\nProfile to update:"]
  let embed :=
    { ie.1 with description := some (String.intercalate "\n" d),
                fields := [("Platform", platform), ("Username", username)] }
  let s : Session :=
    { authorId := authorId, botUserId := botId, messageId := msgId,
      reactions := Link.reactions.map Prod.fst }
  let p := BasePaginator.start canAdd s Link.timeout sigs
    (fun r => Except.ok (Link.result r.emoji)) deleteOk
  { res := p.1, trace := Ev.render :: p.2, embed := embed, description := d }

end Update

namespace Choose

/-- The numeric marker written by `Choose.start` for 1-based position `i`:
the decimal rendering of `i` followed by the combining keycap character
`"⃣"`. -/
def marker (i : Nat) : String := Nat.repr i ++ "⃣"

/-- The loop body of `Choose.start`:
`for index, entry in enumerate(self.entries, start=1)` appends the numeric
marker to `self.reactions` and the line `"index. entry"` to
`self.description`.  Returns `(reactions, description lines)`. -/
def build (first : Nat) : List String → List String × List String
  | [] => ([], [])
  | e :: es =>
    let p := build (first + 1) es
    (marker first :: p.1, (Nat.repr first ++ ". " ++ e) :: p.2)

/-- `Choose.result`: `self.entries[self.reactions.index(str(reaction))]`.
`list.index` raises `ValueError` when the emoji is absent, and the
subscript raises `IndexError` when the found position is out of range of
`entries`; both are modelled as `Except.error`. -/
def result (entries reactions : List String) (emoji : String) : Except Unit String :=
  match List.findIdx? (fun x => x == emoji) reactions with
  | some k =>
    match entries.get? k with
    | some e => Except.ok e
    | none => Except.error ()
  | none => Except.error ()

/-- `Choose.start`: builds the embed, then the numbered marker and
description lines, joins the description, and delegates to
`BasePaginator.start` with the built marker list. -/
def start (color : Nat) (authorName authorIcon : String)
    (authorId botId msgId : Nat) (entries : List String) (timeout : Nat)
    (title image footer : Option String) (canAdd : Bool) (sigs : List Sig)
    (deleteOk : Bool) : StartOut String :=
  let c : EmbedCfg :=
    { color := color, authorName := authorName, authorIcon := authorIcon,
      title := title, image := image, footer := footer }
  let ie := BasePaginator.init_embed c []
  let b := build 1 entries
  let d := ie.2 ++ b.2
  let embed := { ie.1 with description := some (String.intercalate "\n" d) }
  let s : Session :=
    { authorId := authorId, botUserId := botId, messageId := msgId,
      reactions := b.1 }
  let p := BasePaginator.start canAdd s timeout sigs
    (fun r => result entries b.1 r.emoji) deleteOk
  { res := p.1, trace := Ev.render :: p.2, embed := embed, description := d }

end Choose

/-- Character-list decoder for decimal digit strings, used to invert
`Nat.toDigits 10`. -/
def decodeDigits (l : List Char) : Nat :=
  l.foldl (fun acc c => acc * 10 + (c.toNat - 48)) 0

/-! Helper lemmas: injectivity of the decimal rendering used by the
numeric markers of `Choose`. -/

theorem digitChar_toNat : ∀ m : Nat, m < 10 → (Nat.digitChar m).toNat = 48 + m := by
  decide

theorem toDigitsCore_acc (fuel : Nat) : ∀ (n : Nat) (ds : List Char),
    Nat.toDigitsCore 10 fuel n ds = Nat.toDigitsCore 10 fuel n [] ++ ds := by
  induction fuel with
  | zero => intro n ds; simp [Nat.toDigitsCore]
  | succ f ih =>
    intro n ds
    simp only [Nat.toDigitsCore]
    by_cases h : n / 10 = 0
    · simp [h]
    · simp only [h, if_false]
      rw [ih (n / 10) ((n % 10).digitChar :: ds), ih (n / 10) [(n % 10).digitChar]]
      simp

theorem decodeDigits_append (l : List Char) (c : Char) :
    decodeDigits (l ++ [c]) = decodeDigits l * 10 + (c.toNat - 48) := by
  simp [decodeDigits, List.foldl_append]

theorem decode_toDigitsCore : ∀ fuel n : Nat, n < fuel →
    decodeDigits (Nat.toDigitsCore 10 fuel n []) = n := by
  intro fuel
  induction fuel with
  | zero => intro n h; exact absurd h (Nat.not_lt_zero n)
  | succ f ih =>
    intro n h
    simp only [Nat.toDigitsCore]
    by_cases h10 : n / 10 = 0
    · have hlt : n % 10 < 10 := Nat.mod_lt _ (by omega)
      simp [h10, decodeDigits, digitChar_toNat (n % 10) hlt]
      omega
    · simp only [h10, if_false]
      rw [toDigitsCore_acc f (n / 10) [(n % 10).digitChar], decodeDigits_append]
      have hlt : n % 10 < 10 := Nat.mod_lt _ (by omega)
      rw [ih (n / 10) (by omega), digitChar_toNat (n % 10) hlt]
      omega

theorem toDigits_inj {m n : Nat} (h : Nat.toDigits 10 m = Nat.toDigits 10 n) :
    m = n := by
  have hm := decode_toDigitsCore (m + 1) m (Nat.lt_succ_self m)
  have hn := decode_toDigitsCore (n + 1) n (Nat.lt_succ_self n)
  unfold Nat.toDigits at h
  rw [h] at hm
  omega

theorem repr_inj_nat {m n : Nat} (h : Nat.repr m = Nat.repr n) : m = n :=
  toDigits_inj (congrArg String.data h)

theorem marker_inj {i j : Nat} (h : Choose.marker i = Choose.marker j) : i = j := by
  have hd := congrArg String.data h
  simp only [Choose.marker, String.data_append] at hd
  exact toDigits_inj (List.append_cancel_right hd)

/-! Helper lemmas about the marker list built by the `Choose.start` loop. -/

theorem build_length : ∀ (es : List String) (first : Nat),
    (Choose.build first es).1.length = es.length := by
  intro es
  induction es with
  | nil => intro first; rfl
  | cons e es ih => intro first; simp [Choose.build, ih]

theorem build_markers : ∀ (es : List String) (first : Nat),
    (Choose.build first es).1
      = (List.range es.length).map (fun k => Choose.marker (first + k)) := by
  intro es
  induction es with
  | nil => intro first; rfl
  | cons e es ih =>
    intro first
    simp only [Choose.build, List.length_cons, List.range_succ_eq_map,
      List.map_cons, List.map_map, ih (first + 1), Nat.add_zero, List.cons.injEq,
      true_and]
    apply List.map_congr_left
    intro k _
    simp only [Function.comp_apply]
    congr 1
    omega

theorem build_findIdx : ∀ (es : List String) (first i i0 : Nat),
    first ≤ i → i < first + es.length →
    List.findIdx? (fun x => x == Choose.marker i) (Choose.build first es).1 i0
      = some (i0 + (i - first)) := by
  intro es
  induction es with
  | nil => intro first i i0 h1 h2; simp at h2; omega
  | cons e es ih =>
    intro first i i0 h1 h2
    simp only [Choose.build, List.findIdx?_cons]
    by_cases hfi : first = i
    · subst hfi
      simp
    · have hne : (Choose.marker first == Choose.marker i) = false := by
        apply beq_eq_false_iff_ne.2
        intro hEq
        exact hfi (marker_inj hEq)
      rw [hne]
      simp only [Bool.false_eq_true, if_false]
      rw [ih (first + 1) i (i0 + 1) (by omega) (by simp at h2; omega)]
      congr 1
      omega

theorem marker_not_mem_build : ∀ (es : List String) (first i : Nat),
    (i < first ∨ first + es.length ≤ i) →
    Choose.marker i ∉ (Choose.build first es).1 := by
  intro es
  induction es with
  | nil => intro first i _; simp [Choose.build]
  | cons e es ih =>
    intro first i h
    simp only [Choose.build, List.mem_cons]
    rintro (h1 | h2)
    · have := marker_inj h1
      simp at h
      omega
    · exact ih (first + 1) i (by simp at h ⊢; omega) h2

/-! Claim theorems. -/

/-- C1: the wait filter accepts a signal iff the four conjuncts hold —
signaling user equals invoker, signaling user is not the bot, the target
message is the rendered message, and the marker is in the configured set;
consequently two sessions with distinct rendered messages never accept a
signal addressed to the other session. -/
theorem C1_check_accepts_iff_and_isolation (s₁ s₂ : Session) (r : Reaction)
    (u : User) :
    (BasePaginator.check s₁ r u = true ↔
      (u.id = s₁.authorId ∧ u.id ≠ s₁.botUserId ∧ r.messageId = s₁.messageId ∧
        r.emoji ∈ s₁.reactions)) ∧
    (s₁.messageId ≠ s₂.messageId → r.messageId = s₁.messageId →
      BasePaginator.check s₂ r u = false) := by
  constructor
  · unfold BasePaginator.check
    split_ifs with h1 h2 h3 h4 <;> simp_all
  · intro hne hmsg
    unfold BasePaginator.check
    split_ifs with h1 h2 h3 h4 <;> simp_all

/-- C1 witness: a concrete signal addressed to the message of session one
is rejected by the filter of session two. -/
theorem C1_check_accepts_iff_and_isolation_witness :
    (3 : Nat) ≠ 4 ∧ (3 : Nat) = 3 ∧
    BasePaginator.check ⟨1, 2, 4, ["a"]⟩ ⟨"a", 3⟩ ⟨1⟩ = false :=
  ⟨by decide, by decide,
    (C1_check_accepts_iff_and_isolation ⟨1, 2, 3, ["a"]⟩ ⟨1, 2, 4, ["a"]⟩
      ⟨"a", 3⟩ ⟨1⟩).2 (by decide) (by decide)⟩

/-- C10: when the invoking user is not the bot itself, the wait filter
with its bot-self conjunct removed is extensionally equal to the original
filter: any signal that conjunct would reject is already rejected by the
user-equals-invoker conjunct. -/
theorem C10_self_conjunct_redundant (s : Session)
    (h : s.authorId ≠ s.botUserId) (r : Reaction) (u : User) :
    BasePaginator.check s r u = BasePaginator.check_no_self s r u := by
  unfold BasePaginator.check BasePaginator.check_no_self
  split_ifs <;> simp_all

/-- C10 witness: the two filters agree on a concrete session whose invoker
differs from the bot account. -/
theorem C10_self_conjunct_redundant_witness :
    (1 : Nat) ≠ 2 ∧
    BasePaginator.check ⟨1, 2, 3, ["a"]⟩ ⟨"a", 3⟩ ⟨1⟩
      = BasePaginator.check_no_self ⟨1, 2, 3, ["a"]⟩ ⟨"a", 3⟩ ⟨1⟩ :=
  ⟨by decide, C10_self_conjunct_redundant ⟨1, 2, 3, ["a"]⟩ (by decide) ⟨"a", 3⟩ ⟨1⟩⟩

/-- C2: when no signal accepted by the filter arrives within the timeout,
`start` of a permitted session ends in the `NoChoice` exception, with the
transport trace showing the send followed by exactly one delete. -/
theorem C2_timeout_raises_noChoice {α : Type} (s : Session) (timeout : Nat)
    (sigs : List Sig) (resultOf : Reaction → Except Unit α) (deleteOk : Bool)
    (h : BasePaginator.wait_for s timeout sigs = none) :
    BasePaginator.start true s timeout sigs resultOf deleteOk
      = (PagResult.noChoice, [Ev.sendMsg, Ev.deleteMsg]) ∧
    (BasePaginator.start true s timeout sigs resultOf deleteOk).2.count
      Ev.deleteMsg = 1 := by
  have hp : BasePaginator.start true s timeout sigs resultOf deleteOk
      = (PagResult.noChoice, [Ev.sendMsg, Ev.deleteMsg]) := by
    unfold BasePaginator.start BasePaginator.paginator BasePaginator.cleanup
      BasePaginator.message_delete
    rw [h]
    cases deleteOk <;> rfl
  exact ⟨hp, by rw [hp]; rfl⟩

/-- C2 witness: a concrete session with an empty signal stream times out
into `NoChoice` after one delete. -/
theorem C2_timeout_raises_noChoice_witness :
    BasePaginator.wait_for ⟨1, 2, 3, ["a"]⟩ 30 [] = none ∧
    BasePaginator.start true ⟨1, 2, 3, ["a"]⟩ 30 []
        (fun _ => Except.ok (0 : Nat)) true
      = (PagResult.noChoice, [Ev.sendMsg, Ev.deleteMsg]) :=
  ⟨by decide,
    (C2_timeout_raises_noChoice ⟨1, 2, 3, ["a"]⟩ 30 []
      (fun _ => Except.ok (0 : Nat)) true rfl).1⟩

/-- C3: on every exit path of `paginator` after the send — successful
resolution, timeout, cancel selection (a resolved null value), or an error
raised inside `result` — exactly one delete attempt occurs before the call
returns or raises, and `cleanup` never surfaces a transport failure, so it
is safe when the message was already deleted externally. -/
theorem C3_cleanup_on_every_exit {α : Type} (s : Session) (timeout : Nat)
    (sigs : List Sig) (resultOf : Reaction → Except Unit α) (deleteOk : Bool) :
    (BasePaginator.paginator s timeout sigs resultOf deleteOk).2.count
      Ev.deleteMsg = 1 ∧
    (BasePaginator.cleanup deleteOk).2 = none := by
  constructor
  · unfold BasePaginator.paginator BasePaginator.cleanup
      BasePaginator.message_delete
    rcases BasePaginator.wait_for s timeout sigs with _ | r
    · cases deleteOk <;> rfl
    · rcases hr : resultOf r with _ | _ <;> cases deleteOk <;>
        simp only [hr] <;> rfl
  · unfold BasePaginator.cleanup BasePaginator.message_delete
    cases deleteOk <;> rfl

/-- C9: `add_reactions` walks the marker set in insertion order; the
attached markers are exactly the longest all-successful initial segment,
the attempted markers are that segment plus the first failing marker when
one exists (the failure is swallowed and stops the walk), and when every
attach succeeds all markers are attempted and attached. -/
theorem C9_add_reactions_stops_at_failure (attach : String → Bool)
    (markers : List String) :
    (BasePaginator.add_reactions attach markers).2 = markers.takeWhile attach ∧
    (BasePaginator.add_reactions attach markers).1
      = markers.take ((markers.takeWhile attach).length + 1) ∧
    ((∀ m ∈ markers, attach m = true) →
      BasePaginator.add_reactions attach markers = (markers, markers)) := by
  induction markers with
  | nil => exact ⟨rfl, rfl, fun _ => rfl⟩
  | cons m rest ih =>
    by_cases hm : attach m
    · refine ⟨?_, ?_, ?_⟩
      · simp [BasePaginator.add_reactions, BasePaginator.message_add_reaction,
          hm, List.takeWhile_cons, ih.1]
      · simp [BasePaginator.add_reactions, BasePaginator.message_add_reaction,
          hm, List.takeWhile_cons, ih.2.1]
      · intro hall
        have hr := ih.2.2 (fun x hx => hall x (List.mem_cons_of_mem m hx))
        simp [BasePaginator.add_reactions, BasePaginator.message_add_reaction,
          hm, hr]
    · refine ⟨?_, ?_, ?_⟩
      · simp [BasePaginator.add_reactions, BasePaginator.message_add_reaction,
          hm, List.takeWhile_cons]
      · simp [BasePaginator.add_reactions, BasePaginator.message_add_reaction,
          hm, List.takeWhile_cons]
      · intro hall
        exact absurd (hall m (List.mem_cons_self m rest)) (by simpa using hm)

/-- C4 counterexample: in a channel without the add-reactions permission,
the concrete link prompt has already executed `init_embed` when
`BasePaginator.start` raises — the trace holds the render event and the
built embed carries the title — refuting that the failure precedes any
rendering.  (The raise itself and the absence of a send do hold.) -/
theorem C4_no_permission_counterexample :
    (Link.start 0 "n" "i" 1 2 3 false [] true).res
      = PagResult.cannotAddReactions ∧
    Ev.render ∈ (Link.start 0 "n" "i" 1 2 3 false [] true).trace ∧
    (Link.start 0 "n" "i" 1 2 3 false [] true).embed.title = some "Platform" := by
  decide

/-- C4 amended: calling `start` without the add-reactions permission
raises `CannotAddReactions` and performs no send and no delete — at the
base level nothing is emitted at all — but the concrete prompt start
methods build the display object before that capability check runs. -/
theorem C4_no_permission_no_send {α : Type} (s : Session) (timeout : Nat)
    (sigs : List Sig) (resultOf : Reaction → Except Unit α) (deleteOk : Bool)
    (color : Nat) (an ai : String) (aid bid mid : Nat) :
    BasePaginator.start false s timeout sigs resultOf deleteOk
      = (PagResult.cannotAddReactions, []) ∧
    (Link.start color an ai aid bid mid false sigs deleteOk).res
      = PagResult.cannotAddReactions ∧
    (Link.start color an ai aid bid mid false sigs deleteOk).trace
      = [Ev.render] ∧
    Ev.sendMsg ∉ (Link.start color an ai aid bid mid false sigs deleteOk).trace := by
  refine ⟨rfl, rfl, rfl, ?_⟩
  simp [Link.start, BasePaginator.start]

/-- The wait filter rejects any signal whose emoji is outside the
configured marker set. -/
theorem check_false_of_not_mem (s : Session) (r : Reaction) (u : User)
    (h : r.emoji ∉ s.reactions) : BasePaginator.check s r u = false := by
  unfold BasePaginator.check
  split_ifs <;> simp_all

/-- C5 counterexample: the empty string is a title of at most 256
characters, yet Python truthiness skips it: it is not set as the embed
title, refuting that every title within the bound is set. -/
theorem C5_empty_title_counterexample :
    String.length "" ≤ 256 ∧
    (BasePaginator.init_embed
        { color := 0, authorName := "n", authorIcon := "i", title := some "" }
        []).1.title ≠ some "" := by
  decide

/-- C5 amended: the embed title produced by `init_embed` never exceeds 256
characters; a nonempty title within the bound is set as the title, an
empty title is skipped, and a longer title is instead moved into the body
text, landing before any body lines subsequently appended. -/
theorem C5_title_never_overlong (cfg : EmbedCfg) (descr : List String) :
    (∀ t, (BasePaginator.init_embed cfg descr).1.title = some t →
      t.length ≤ 256) ∧
    (∀ t, cfg.title = some t → t ≠ "" → t.length ≤ 256 →
      (BasePaginator.init_embed cfg descr).1.title = some t) ∧
    (∀ t, cfg.title = some t → 256 < t.length →
      (BasePaginator.init_embed cfg descr).1.title = none ∧
      ∀ bodyLines : List String,
        (BasePaginator.init_embed cfg []).2 ++ bodyLines = t :: bodyLines) := by
  rcases ht : cfg.title with _ | t
  · refine ⟨?_, ?_, ?_⟩
    · intro t h
      unfold BasePaginator.init_embed at h
      rcases hi : cfg.image with _ | u <;> rcases hf : cfg.footer with _ | f
      · simp [ht, hi, hf] at h
      · simp [ht, hi, hf] at h; split_ifs at h
      · simp [ht, hi, hf] at h; split_ifs at h
      · simp [ht, hi, hf] at h; split_ifs at h
    · intro t h; simp [ht] at h
    · intro t h; simp [ht] at h
  · refine ⟨?_, ?_, ?_⟩
    · intro t' h
      unfold BasePaginator.init_embed at h
      rcases hi : cfg.image with _ | u <;> rcases hf : cfg.footer with _ | f <;>
        simp [ht, hi, hf] at h <;> split_ifs at h <;> simp_all
    · intro t' h h1 h2
      have : t = t' := Option.some.inj h
      subst this
      unfold BasePaginator.init_embed
      rcases hi : cfg.image with _ | u <;> rcases hf : cfg.footer with _ | f <;>
        simp [ht, hi, hf, h1, h2] <;> split_ifs <;> simp_all
    · intro t' h h2
      have : t = t' := Option.some.inj h
      subst this
      have h1 : ¬ t = "" := by intro he; rw [he] at h2; simp at h2
      constructor
      · unfold BasePaginator.init_embed
        rcases hi : cfg.image with _ | u <;> rcases hf : cfg.footer with _ | f <;>
          simp [ht, hi, hf, h1] <;> split_ifs <;> simp_all <;> omega
      · intro bodyLines
        unfold BasePaginator.init_embed
        rcases hi : cfg.image with _ | u <;> rcases hf : cfg.footer with _ | f <;>
          simp [ht, hi, hf, h1, Nat.not_le.2 h2]

set_option maxRecDepth 8000 in
/-- C5 witness: a concrete 257-character title is demoted — the embed
title stays unset and the title heads the body lines. -/
theorem C5_title_never_overlong_witness :
    ({ color := 0, authorName := "n", authorIcon := "i",
        title := some (String.mk (List.replicate 257 'a')) : EmbedCfg }.title
      = some (String.mk (List.replicate 257 'a'))) ∧
    256 < (String.mk (List.replicate 257 'a')).length ∧
    (BasePaginator.init_embed
        { color := 0, authorName := "n", authorIcon := "i",
          title := some (String.mk (List.replicate 257 'a')) } []).1.title
      = none :=
  ⟨rfl, by decide,
    ((C5_title_never_overlong
        { color := 0, authorName := "n", authorIcon := "i",
          title := some (String.mk (List.replicate 257 'a')) } []).2.2
      (String.mk (List.replicate 257 'a')) rfl (by decide)).1⟩

set_option maxRecDepth 8000 in
/-- C6 counterexample: with a 257-character title configured, `init_embed`
appends to the accumulated body-line list, refuting that it has no side
effect on the session state. -/
theorem C6_init_embed_mutates_counterexample :
    (BasePaginator.init_embed
        { color := 0, authorName := "n", authorIcon := "i",
          title := some (String.mk (List.replicate 257 'a')) } []).2 ≠ [] := by
  decide

/-- C6 amended: `init_embed` is a function of the configuration and the
body lines whose only state effect is title demotion: the body-line list
is returned unchanged unless the configured title exceeds 256 characters,
in which case exactly that title is appended to it. -/
theorem C6_init_embed_effect (cfg : EmbedCfg) (descr : List String) :
    (BasePaginator.init_embed cfg descr).2 = descr ∨
    (∃ t, cfg.title = some t ∧ 256 < t.length ∧
      (BasePaginator.init_embed cfg descr).2 = descr ++ [t]) := by
  unfold BasePaginator.init_embed
  rcases ht : cfg.title with _ | t
  · left; rfl
  · by_cases h1 : t = ""
    · left; simp [h1]
    · by_cases h2 : t.length ≤ 256
      · left; simp [h1, h2]
      · right
        exact ⟨t, rfl, by omega, by simp [h1, h2]⟩

/-- C7: for the link prompt — and the update-confirmation prompt, which
inherits the same `reactions` dict and `result` method from `Link`
unchanged — the cancel marker resolves to the null value and each of the
four platform markers resolves to exactly its canonical identifier. -/
theorem C7_link_marker_resolution :
    Link.result "❌" = none ∧
    Link.result "<:battlenet:679469162724196387>" = some "pc" ∧
    Link.result "<:psn:679468542541693128>" = some "psn" ∧
    Link.result "<:xbl:679469487623503930>" = some "xbl" ∧
    Link.result "<:nsw:752653766377078817>" = some "nintendo-switch" := by
  decide

/-- C8: the choice prompt builds the numeric marker of 1-based position i
for the i-th entry; `result` maps that marker back to exactly that entry;
and a selection carrying an out-of-range numeric marker or a foreign emoji
is rejected by the wait filter, so it never resolves. -/
theorem C8_choose_resolution (entries : List String) (i : Nat) (s : Session)
    (r : Reaction) (u : User)
    (hs : s.reactions = (Choose.build 1 entries).1) :
    ((Choose.build 1 entries).1
      = (List.range entries.length).map (fun k => Choose.marker (k + 1))) ∧
    (∀ e, 1 ≤ i → entries.get? (i - 1) = some e →
      Choose.result entries (Choose.build 1 entries).1 (Choose.marker i)
        = Except.ok e) ∧
    ((i = 0 ∨ entries.length < i) → r.emoji = Choose.marker i →
      BasePaginator.check s r u = false) ∧
    (r.emoji ∉ (Choose.build 1 entries).1 → BasePaginator.check s r u = false) := by
  refine ⟨?_, ?_, ?_, ?_⟩
  · rw [build_markers entries 1]
    apply List.map_congr_left
    intro k _
    congr 1
    omega
  · intro e h1 hget
    have hlen : i - 1 < entries.length := (List.get?_eq_some.1 hget).1
    unfold Choose.result
    rw [build_findIdx entries 1 i 0 h1 (by omega)]
    simp only [List.get?_eq_getElem?] at hget
    simp [hget]
  · intro hi hemoji
    apply check_false_of_not_mem
    rw [hs, hemoji]
    exact marker_not_mem_build entries 1 i (by omega)
  · intro hemoji
    apply check_false_of_not_mem
    rw [hs]
    exact hemoji

/-- C8 witness: for entries A, B, C the numeric marker of position 2
resolves to B, and a foreign emoji is rejected by the filter. -/
theorem C8_choose_resolution_witness :
    (1 : Nat) ≤ 2 ∧ ["A", "B", "C"].get? 1 = some "B" ∧
    Choose.result ["A", "B", "C"] (Choose.build 1 ["A", "B", "C"]).1
        (Choose.marker 2) = Except.ok "B" :=
  ⟨by decide, by decide,
    (C8_choose_resolution ["A", "B", "C"] 2
        ⟨1, 2, 3, (Choose.build 1 ["A", "B", "C"]).1⟩ ⟨"z", 3⟩ ⟨1⟩ rfl).2.1
      "B" (by decide) (by decide)⟩

/-- C9 witness: with a transport that fails on the marker `"x"`, the walk
over four markers attaches the two-marker initial segment, attempts the
failing marker, and stops. -/
theorem C9_add_reactions_stops_at_failure_witness :
    (BasePaginator.add_reactions (fun m => m ≠ "x") ["a", "b", "x", "c"]).2
      = ["a", "b"] ∧
    (∀ m ∈ ["a", "b"], (fun x => decide (x ≠ "x")) m = true) ∧
    BasePaginator.add_reactions (fun m => m ≠ "x") ["a", "b"] = (["a", "b"], ["a", "b"]) :=
  ⟨by decide, by decide,
    (C9_add_reactions_stops_at_failure (fun m => m ≠ "x") ["a", "b"]).2.2
      (by decide)⟩

end OverBot
